import Mathlib

/-!
Verification of the rmm packaging script (`python/setup.py`).

The script locates a CUDA toolkit installation (environment-variable
override with a search-path fallback via `shutil.which "cuda-gdb"`),
validates the resolved directory, derives the toolkit include directory,
assembles the Cython `Extension` build configuration, and hands it to
`setup`.  We embed the script as pure functions over an explicit
environment record, recording the externally visible actions
(search-path probe, directory checks, cythonization, the backend setup
call) in an effect trace.
-/

namespace RmmSetup

/-- Model of POSIX `os.path.dirname` step 1: the part of the path up to and
including the final separator (`p[:p.rfind(sep) + 1]`), computed on the
character list. -/
def headPart (p : List Char) : List Char :=
  ((p.reverse).dropWhile (fun c => !(c == '/'))).reverse

/-- Model of POSIX `os.path.dirname` on the character list: take the part up
to the last separator; if it is nonempty and not entirely separators, strip
trailing separators. -/
def dirnameL (p : List Char) : List Char :=
  let head := headPart p
  if head ≠ [] ∧ head.all (fun c => c == '/') = false then
    (head.reverse.dropWhile (fun c => c == '/')).reverse
  else head

/-- Model of `os.path.dirname` on strings. -/
def dirname (p : String) : String := ⟨dirnameL p.data⟩

/-- Whether a string starts with the path separator (`startswith "/"`). -/
def startsWithSlash (s : String) : Bool :=
  match s.data with
  | [] => false
  | c :: _ => c == '/'

/-- Whether a string ends with the path separator (`endswith "/"`). -/
def endsWithSlash (s : String) : Bool :=
  match s.data.getLast? with
  | none => false
  | some c => c == '/'

/-- Model of the two-argument POSIX `os.path.join a b`: if `b` is absolute it
wins; otherwise it is appended to `a`, inserting a separator unless `a` is
empty or already ends with one. -/
def joinPath (a b : String) : String :=
  if startsWithSlash b then b
  else if a = "" ∨ endsWithSlash a then a ++ b
  else a ++ "/" ++ b

/-- Model of the Python `OSError` raised by the script: a single exception
type carrying only a message string. -/
structure OSError where
  msg : String
deriving DecidableEq, Repr

/-- The message of the `OSError` raised when neither the `CUDA_HOME`
override nor the search-path probe locates CUDA (setup.py lines 20-25,
the adjacent string literals concatenated). -/
def couldNotLocateMsg : String :=
  "Could not locate CUDA. Please set the environment variable CUDA_HOME to the path to the CUDA installation and try again."

/-- The message of the `OSError` raised when the resolved `CUDA_HOME` is not
an existing directory (setup.py line 29). -/
def invalidCudaHomeMsg (p : String) : String :=
  "Invalid CUDA_HOME: directory does not exist: " ++ p

/-- The process environment and filesystem facts the script consults:
the raw value of the `CUDA_HOME` environment variable (if set), the result
of `shutil.which "cuda-gdb"`, and the `os.path.isdir` oracle. -/
structure Env where
  cudaHomeVar : Option String
  whichCudaGdb : Option String
  isDir : String → Bool

/-- Externally visible actions of the script, recorded as a trace:
the search-path probe `shutil.which "cuda-gdb"`, an `os.path.isdir` check,
the `cythonize` call, and the backend `setup` call. -/
inductive Effect where
  | whichProbe
  | isDirCheck (p : String)
  | cythonize
  | setupCall
deriving DecidableEq, Repr

/-- Lines 16-17: `CUDA_HOME = os.environ.get("CUDA_HOME", False)` followed by
the falsy test `if not CUDA_HOME`.  The absent variable yields `False` and an
empty string is falsy, so both give `none`; any other value is kept. -/
def truthyCudaHome (env : Env) : Option String :=
  match env.cudaHomeVar with
  | none => none
  | some s => if s = "" then none else some s

/-- Lines 16-26: resolve `CUDA_HOME`, before validation.  A truthy override
is trusted as-is; otherwise the search path is probed for `cuda-gdb` and, if
found, the grandparent directory of the binary is taken; if not found, the
"could not locate" `OSError` is raised. -/
def resolveCUDAHomeTr (env : Env) : Except OSError String × List Effect :=
  match truthyCudaHome env with
  | some h => (Except.ok h, [])
  | none =>
      match env.whichCudaGdb with
      | none => (Except.error ⟨couldNotLocateMsg⟩, [Effect.whichProbe])
      | some p => (Except.ok (dirname (dirname p)), [Effect.whichProbe])

/-- Lines 16-29: resolution followed by the validation
`if not os.path.isdir(CUDA_HOME)`, which raises the "invalid CUDA_HOME"
`OSError` naming the resolved path. -/
def locateCUDAHomeTr (env : Env) : Except OSError String × List Effect :=
  match resolveCUDAHomeTr env with
  | (Except.error e, tr) => (Except.error e, tr)
  | (Except.ok h, tr) =>
      if env.isDir h then (Except.ok h, tr ++ [Effect.isDirCheck h])
      else (Except.error ⟨invalidCudaHomeMsg h⟩, tr ++ [Effect.isDirCheck h])

/-- The locator's result, without the effect trace. -/
def locateCUDAHome (env : Env) : Except OSError String :=
  (locateCUDAHomeTr env).1

/-- Line 31: `cuda_include_dir = os.path.join(CUDA_HOME, "include")`. -/
def cuda_include_dir (home : String) : String := joinPath home "include"

/-- Line 14: `cython_files = ["rmm/_lib/**/*.pyx"]`. -/
def cython_files : List String := ["rmm/_lib/**/*.pyx"]

/-- The `setuptools.extension.Extension` record as the script populates it. -/
structure Extension where
  name : String
  sources : List String
  include_dirs : List String
  library_dirs : List String
  libraries : List String
  language : String
  extra_compile_args : List String
deriving DecidableEq, Repr

/-- The host-installation facts the extension list depends on:
`sysconfig.get_path("include")`, `distutils.sysconfig.get_python_lib()`,
and `os.sys.prefix` (field `sysRoot`). -/
structure ProjectLayout where
  sysconfigIncludePath : String
  pythonLib : String
  sysRoot : String
deriving DecidableEq, Repr

/-- Lines 33-49: the `extensions` list, a pure function of the host layout
and the located `CUDA_HOME`. -/
def extensions (layout : ProjectLayout) (home : String) : List Extension :=
  [{ name := "*"
   , sources := cython_files
   , include_dirs :=
       [ "../include/rmm"
       , "../include"
       , "../build/include"
       , dirname layout.sysconfigIncludePath
       , cuda_include_dir home ]
   , library_dirs := [layout.pythonLib, joinPath layout.sysRoot "lib"]
   , libraries := ["rmm"]
   , language := "c++"
   , extra_compile_args := ["-std=c++14"] }]

/-- The arguments the script passes to the backend `setup` call
(lines 51-75), restricted to the fields the claims mention; `cythonize` and
`setup` themselves are external collaborators, represented in the effect
trace. -/
structure SetupArgs where
  name : String
  version : String
  description : String
  url : String
  author : String
  license : String
  ext_modules : List Extension
  zip_safe : Bool
deriving DecidableEq, Repr

/-- Outcome of running the script: an uncaught `OSError`, or a completed
configure-and-setup run. -/
inductive ScriptResult where
  | raised (e : OSError)
  | completed (args : SetupArgs)
deriving DecidableEq, Repr

/-- The whole script, top to bottom: locate the toolkit (raising on
failure), assemble the extension list, then cythonize and call `setup`.
The returned trace extends the locator's trace with the `cythonize` and
`setup` effects exactly when location succeeded. -/
def runSetupScript (env : Env) (layout : ProjectLayout) :
    ScriptResult × List Effect :=
  match locateCUDAHomeTr env with
  | (Except.error e, tr) => (ScriptResult.raised e, tr)
  | (Except.ok home, tr) =>
      (ScriptResult.completed
        { name := "rmm"
        , version := "0.14.0"
        , description := "rmm - RAPIDS Memory Manager"
        , url := "https://github.com/rapidsai/rmm"
        , author := "NVIDIA Corporation"
        , license := "Apache 2.0"
        , ext_modules := extensions layout home
        , zip_safe := false },
       tr ++ [Effect.cythonize, Effect.setupCall])

end RmmSetup

namespace RmmSetup

theorem dropWhile_append_ne {p : Char → Bool} (l₁ l₂ : List Char)
    (h : l₁.dropWhile p ≠ []) :
    (l₁ ++ l₂).dropWhile p = l₁.dropWhile p ++ l₂ := by
  rw [List.dropWhile_append, if_neg]
  simpa using h

theorem dirnameL_bin_tool (r : List Char) :
    dirnameL (r ++ ['/', 'b', 'i', 'n', '/', 'c', 'u', 'd', 'a', '-', 'g', 'd', 'b'])
      = r ++ ['/', 'b', 'i', 'n'] := by
  have h1 : headPart (r ++ ['/', 'b', 'i', 'n', '/', 'c', 'u', 'd', 'a', '-', 'g', 'd', 'b'])
      = r ++ ['/', 'b', 'i', 'n', '/'] := by
    unfold headPart
    rw [List.reverse_append]
    rw [show (['/', 'b', 'i', 'n', '/', 'c', 'u', 'd', 'a', '-', 'g', 'd', 'b'] : List Char).reverse
        = ['b', 'd', 'g', '-', 'a', 'd', 'u', 'c', '/', 'n', 'i', 'b', '/'] from rfl]
    rw [dropWhile_append_ne _ _ (by decide)]
    rw [show (['b', 'd', 'g', '-', 'a', 'd', 'u', 'c', '/', 'n', 'i', 'b', '/'] : List Char).dropWhile
        (fun c => !(c == '/')) = ['/', 'n', 'i', 'b', '/'] from rfl]
    rw [List.reverse_append, List.reverse_reverse]
    rfl
  have hcond : r ++ ['/', 'b', 'i', 'n', '/'] ≠ [] ∧
      (r ++ ['/', 'b', 'i', 'n', '/']).all (fun c => c == '/') = false := by
    refine ⟨by simp, ?_⟩
    rw [List.all_append]
    rw [show (['/', 'b', 'i', 'n', '/'] : List Char).all (fun c => c == '/') = false from rfl]
    exact Bool.and_false _
  unfold dirnameL
  rw [h1, if_pos hcond]
  rw [List.reverse_append]
  rw [show (['/', 'b', 'i', 'n', '/'] : List Char).reverse = ['/', 'n', 'i', 'b', '/'] from rfl]
  rw [dropWhile_append_ne _ _ (by decide)]
  rw [show (['/', 'n', 'i', 'b', '/'] : List Char).dropWhile (fun c => c == '/')
      = ['n', 'i', 'b', '/'] from rfl]
  rw [List.reverse_append, List.reverse_reverse]
  rfl

theorem dirnameL_parent_bin (r : List Char) (hr : r ≠ [])
    (h1 : r.getLast? ≠ some '/') :
    dirnameL (r ++ ['/', 'b', 'i', 'n']) = r := by
  have hhead : headPart (r ++ ['/', 'b', 'i', 'n']) = r ++ ['/'] := by
    unfold headPart
    rw [List.reverse_append]
    rw [show (['/', 'b', 'i', 'n'] : List Char).reverse = ['n', 'i', 'b', '/'] from rfl]
    rw [dropWhile_append_ne _ _ (by decide)]
    rw [show (['n', 'i', 'b', '/'] : List Char).dropWhile (fun c => !(c == '/'))
        = ['/'] from rfl]
    rw [List.reverse_append, List.reverse_reverse]
    rfl
  have hall : r.all (fun c => c == '/') = false := by
    cases hA : r.all (fun c => c == '/') with
    | false => rfl
    | true =>
      exfalso
      have hmem := List.getLast_mem hr
      have hbeq := (List.all_eq_true.mp hA) _ hmem
      have hx : r.getLast hr = '/' := by simpa using hbeq
      exact h1 (by rw [List.getLast?_eq_getLast_of_ne_nil hr, hx])
  have hcond : r ++ ['/'] ≠ [] ∧
      (r ++ ['/']).all (fun c => c == '/') = false := by
    refine ⟨by simp, ?_⟩
    rw [List.all_append]
    rw [show (['/'] : List Char).all (fun c => c == '/') = true from rfl]
    rw [Bool.and_true]
    exact hall
  unfold dirnameL
  rw [hhead, if_pos hcond]
  rw [List.reverse_append]
  rw [show (['/'] : List Char).reverse = ['/'] from rfl]
  rw [List.singleton_append, List.dropWhile_cons]
  rw [show (('/' : Char) == '/') = true from rfl]
  rw [if_pos rfl]
  have hrev : r.reverse.dropWhile (fun c => c == '/') = r.reverse := by
    cases hR : r.reverse with
    | nil => rfl
    | cons c t =>
      have hc : r.getLast? = some c := by
        rw [← List.head?_reverse, hR]; rfl
      have hcne : (c == '/') = false := by
        cases hE : c == '/' with
        | false => rfl
        | true =>
          exfalso
          exact h1 (by rw [hc]; congr 1; exact eq_of_beq hE)
      rw [List.dropWhile_cons, hcne]
      simp
  rw [hrev, List.reverse_reverse]

theorem dirname_dirname_bin_tool (root : String) (h0 : root ≠ "")
    (h1 : root.data.getLast? ≠ some '/') :
    dirname (dirname (root ++ "/bin/cuda-gdb")) = root := by
  have hr : root.data ≠ [] := by
    intro h
    apply h0
    cases root with
    | mk l =>
      simp only [String.data] at h
      rw [h]
  have hd1 : (root ++ "/bin/cuda-gdb").data
      = root.data ++ ['/', 'b', 'i', 'n', '/', 'c', 'u', 'd', 'a', '-', 'g', 'd', 'b'] := by
    rw [String.data_append]
  have step1 : dirname (root ++ "/bin/cuda-gdb") = ⟨root.data ++ ['/', 'b', 'i', 'n']⟩ := by
    show (⟨dirnameL (root ++ "/bin/cuda-gdb").data⟩ : String) = _
    rw [hd1, dirnameL_bin_tool]
  rw [step1]
  show (⟨dirnameL (⟨root.data ++ ['/', 'b', 'i', 'n']⟩ : String).data⟩ : String) = root
  rw [show (⟨root.data ++ ['/', 'b', 'i', 'n']⟩ : String).data
      = root.data ++ ['/', 'b', 'i', 'n'] from rfl]
  rw [dirnameL_parent_bin root.data hr h1]

end RmmSetup

namespace RmmSetup

/-- C1: if the `CUDA_HOME` environment variable is set to a non-empty string
naming an existing directory, the locator returns exactly that string, and
the search path is never probed for `cuda-gdb`. -/
theorem C1_override_trusted (env : Env) (s : String)
    (hset : env.cudaHomeVar = some s) (hne : s ≠ "")
    (hdir : env.isDir s = true) :
    locateCUDAHomeTr env = (Except.ok s, [Effect.isDirCheck s]) ∧
      Effect.whichProbe ∉ (locateCUDAHomeTr env).2 := by
  have ht : truthyCudaHome env = some s := by
    simp [truthyCudaHome, hset, hne]
  have hres : resolveCUDAHomeTr env = (Except.ok s, []) := by
    simp [resolveCUDAHomeTr, ht]
  have hloc : locateCUDAHomeTr env = (Except.ok s, [Effect.isDirCheck s]) := by
    simp [locateCUDAHomeTr, hres, hdir]
  exact ⟨hloc, by rw [hloc]; simp⟩

theorem C1_witness :
    locateCUDAHomeTr ⟨some "/x", none, fun p => p == "/x"⟩
      = (Except.ok "/x", [Effect.isDirCheck "/x"]) ∧
      Effect.whichProbe ∉ (locateCUDAHomeTr ⟨some "/x", none, fun p => p == "/x"⟩).2 :=
  C1_override_trusted ⟨some "/x", none, fun p => p == "/x"⟩ "/x" rfl (by decide) (by decide)

/-- C2: when the override is absent (or empty) and `cuda-gdb` is not on the
search path, the locator raises the "could not locate" `OSError`, whose
message names `CUDA_HOME`, and produces no toolkit path. -/
theorem C2_not_found (env : Env)
    (hvar : env.cudaHomeVar = none ∨ env.cudaHomeVar = some "")
    (hwhich : env.whichCudaGdb = none) :
    locateCUDAHomeTr env = (Except.error ⟨couldNotLocateMsg⟩, [Effect.whichProbe]) ∧
      ∃ a b, couldNotLocateMsg = a ++ ("CUDA_HOME" ++ b) := by
  have ht : truthyCudaHome env = none := by
    rcases hvar with h | h <;> simp [truthyCudaHome, h]
  refine ⟨?_, "Could not locate CUDA. Please set the environment variable ",
    " to the path to the CUDA installation and try again.", ?_⟩
  · simp [locateCUDAHomeTr, resolveCUDAHomeTr, ht, hwhich]
  · rfl

theorem C2_witness :
    locateCUDAHomeTr ⟨none, none, fun _ => true⟩
      = (Except.error ⟨couldNotLocateMsg⟩, [Effect.whichProbe]) ∧
      ∃ a b, couldNotLocateMsg = a ++ ("CUDA_HOME" ++ b) :=
  C2_not_found ⟨none, none, fun _ => true⟩ (Or.inl rfl) rfl

/-- C3: with no override set and `cuda-gdb` found at `root ++ "/bin/cuda-gdb"`
on the search path (for a well-formed root: non-empty, no trailing
separator) that names an existing directory, the locator returns `root`,
the grandparent directory of the binary's path. -/
theorem C3_grandparent (env : Env) (root : String)
    (hvar : env.cudaHomeVar = none ∨ env.cudaHomeVar = some "")
    (hwhich : env.whichCudaGdb = some (root ++ "/bin/cuda-gdb"))
    (h0 : root ≠ "") (h1 : root.data.getLast? ≠ some '/')
    (hdir : env.isDir root = true) :
    locateCUDAHome env = Except.ok root := by
  have ht : truthyCudaHome env = none := by
    rcases hvar with h | h <;> simp [truthyCudaHome, h]
  have hdd := dirname_dirname_bin_tool root h0 h1
  simp [locateCUDAHome, locateCUDAHomeTr, resolveCUDAHomeTr, ht, hwhich, hdd, hdir]

theorem C3_witness :
    locateCUDAHome ⟨none, some "/usr/local/cuda/bin/cuda-gdb",
        fun p => p == "/usr/local/cuda"⟩ = Except.ok "/usr/local/cuda" :=
  C3_grandparent ⟨none, some "/usr/local/cuda/bin/cuda-gdb",
      fun p => p == "/usr/local/cuda"⟩ "/usr/local/cuda"
    (Or.inl rfl) (by decide) (by decide) (by decide) (by decide)

/-- C4: whenever the resolved toolkit path (from either source) is not an
existing directory, the locator raises the "invalid CUDA_HOME" `OSError`,
whose message ends with that exact resolved path. -/
theorem C4_invalid_path (env : Env) (h : String) (tr : List Effect)
    (hres : resolveCUDAHomeTr env = (Except.ok h, tr))
    (hdir : env.isDir h = false) :
    locateCUDAHome env = Except.error ⟨invalidCudaHomeMsg h⟩ ∧
      ∃ a, invalidCudaHomeMsg h = a ++ h := by
  constructor
  · simp [locateCUDAHome, locateCUDAHomeTr, hres, hdir]
  · exact ⟨"Invalid CUDA_HOME: directory does not exist: ", rfl⟩

theorem C4_witness :
    locateCUDAHome ⟨some "/nope", none, fun _ => false⟩
      = Except.error ⟨invalidCudaHomeMsg "/nope"⟩ ∧
      ∃ a, invalidCudaHomeMsg "/nope" = a ++ "/nope" :=
  C4_invalid_path ⟨some "/nope", none, fun _ => false⟩ "/nope" [] rfl rfl

end RmmSetup

namespace RmmSetup

theorem locate_trace_no_build (env : Env) :
    Effect.cythonize ∉ (locateCUDAHomeTr env).2 ∧
      Effect.setupCall ∉ (locateCUDAHomeTr env).2 := by
  unfold locateCUDAHomeTr resolveCUDAHomeTr
  cases ht : truthyCudaHome env with
  | some h => cases hd : env.isDir h <;> simp [hd]
  | none =>
    cases hw : env.whichCudaGdb with
    | none => simp
    | some p => cases hd : env.isDir (dirname (dirname p)) <;> simp [hd]

/-- C5: when the locator raises, the script stops with that error and the
trace contains neither the cythonization step nor the backend `setup`
call: no compilation ever follows a locator failure. -/
theorem C5_fail_short_circuits (env : Env) (layout : ProjectLayout) (e : OSError)
    (hfail : locateCUDAHome env = Except.error e) :
    runSetupScript env layout = (ScriptResult.raised e, (locateCUDAHomeTr env).2) ∧
      Effect.cythonize ∉ (runSetupScript env layout).2 ∧
      Effect.setupCall ∉ (runSetupScript env layout).2 := by
  rcases hE : locateCUDAHomeTr env with ⟨res, tr⟩
  have hres : res = Except.error e := by
    have h1 := hfail
    unfold locateCUDAHome at h1
    rw [hE] at h1
    exact h1
  subst hres
  have htr := locate_trace_no_build env
  rw [hE] at htr
  refine ⟨?_, ?_, ?_⟩ <;> unfold runSetupScript <;> rw [hE] <;> simp [htr.1, htr.2]

theorem C5_witness :
    runSetupScript ⟨none, none, fun _ => true⟩ ⟨"/pyinc", "/pylib", "/usr"⟩
      = (ScriptResult.raised ⟨couldNotLocateMsg⟩,
          (locateCUDAHomeTr ⟨none, none, fun _ => true⟩).2) ∧
      Effect.cythonize ∉
        (runSetupScript ⟨none, none, fun _ => true⟩ ⟨"/pyinc", "/pylib", "/usr"⟩).2 ∧
      Effect.setupCall ∉
        (runSetupScript ⟨none, none, fun _ => true⟩ ⟨"/pyinc", "/pylib", "/usr"⟩).2 :=
  C5_fail_short_circuits ⟨none, none, fun _ => true⟩ ⟨"/pyinc", "/pylib", "/usr"⟩
    ⟨couldNotLocateMsg⟩ rfl

theorem locate_ok_isDir (env : Env) (h : String)
    (hok : locateCUDAHome env = Except.ok h) : env.isDir h = true := by
  unfold locateCUDAHome locateCUDAHomeTr at hok
  rcases hres : resolveCUDAHomeTr env with ⟨res, tr⟩
  rw [hres] at hok
  cases res with
  | error e => simp at hok
  | ok h2 =>
    cases hd : env.isDir h2 with
    | false => simp [hd] at hok
    | true =>
      simp [hd] at hok
      rw [← hok]
      exact hd

/-- C6 counterexample: an override naming an existing directory is accepted
by the locator although its `include` subdirectory does not exist, so the
"must contain an `include` subdirectory" part of the claimed invariant is
not established by the code. -/
theorem C6_counterexample :
    locateCUDAHome ⟨some "/opt/cuda", none, fun p => p == "/opt/cuda"⟩
      = Except.ok "/opt/cuda" ∧
      Env.isDir ⟨some "/opt/cuda", none, fun p => p == "/opt/cuda"⟩ "/opt/cuda" = true ∧
      Env.isDir ⟨some "/opt/cuda", none, fun p => p == "/opt/cuda"⟩
        (cuda_include_dir "/opt/cuda") = false :=
  ⟨rfl, rfl, rfl⟩

/-- C6 (amended): every toolkit path accepted by the locator passes the
directory-existence check, and the build configuration's include list ends
with the derived include sub-path (the toolkit root joined with
`"include"`); the existence of that `include` subdirectory is not
validated. -/
theorem C6_amended_accept (env : Env) (h : String) (layout : ProjectLayout)
    (hok : locateCUDAHome env = Except.ok h) :
    env.isDir h = true ∧
      cuda_include_dir h = joinPath h "include" ∧
      (extensions layout h).map (fun e => e.include_dirs.getLast?)
        = [some (cuda_include_dir h)] := by
  exact ⟨locate_ok_isDir env h hok, rfl, rfl⟩

theorem C6_witness :
    Env.isDir ⟨some "/x", none, fun _ => true⟩ "/x" = true ∧
      cuda_include_dir "/x" = joinPath "/x" "include" ∧
      (extensions ⟨"/pyinc", "/pylib", "/usr"⟩ "/x").map
          (fun e => e.include_dirs.getLast?)
        = [some (cuda_include_dir "/x")] :=
  C6_amended_accept ⟨some "/x", none, fun _ => true⟩ "/x"
    ⟨"/pyinc", "/pylib", "/usr"⟩ rfl

/-- C7: the extension build specification is deterministic — two
evaluations at the same locator output and host layout yield the same
record, in particular identical include-directory, library-directory,
library-name and compiler-flag lists; `extensions` reads nothing beyond
its two arguments. -/
theorem C7_extensions_deterministic (layout : ProjectLayout) (home : String) :
    extensions layout home = extensions layout home ∧
      (extensions layout home).map (fun e => e.include_dirs)
        = (extensions layout home).map (fun e => e.include_dirs) ∧
      (extensions layout home).map (fun e => e.library_dirs)
        = (extensions layout home).map (fun e => e.library_dirs) ∧
      (extensions layout home).map (fun e => e.libraries)
        = (extensions layout home).map (fun e => e.libraries) ∧
      (extensions layout home).map (fun e => e.extra_compile_args)
        = (extensions layout home).map (fun e => e.extra_compile_args) :=
  ⟨rfl, rfl, rfl, rfl, rfl⟩

/-- C8: the single extension record lists the three project include
directories first, then the host-language runtime include directory, then
the toolkit include directory, and carries the source glob, library
directories, linked library name, language tag and compiler flags. -/
theorem C8_extension_record (layout : ProjectLayout) (home : String) :
    (extensions layout home).map (fun e => e.include_dirs)
      = [["../include/rmm", "../include", "../build/include",
          dirname layout.sysconfigIncludePath, cuda_include_dir home]] ∧
      (extensions layout home).map (fun e => e.sources) = [cython_files] ∧
      (extensions layout home).map (fun e => e.library_dirs)
        = [[layout.pythonLib, joinPath layout.sysRoot "lib"]] ∧
      (extensions layout home).map (fun e => e.libraries) = [["rmm"]] ∧
      (extensions layout home).map (fun e => e.language) = ["c++"] ∧
      (extensions layout home).map (fun e => e.extra_compile_args)
        = [["-std=c++14"]] :=
  ⟨rfl, rfl, rfl, rfl, rfl, rfl⟩

/-- C9: an override set to the empty string is treated exactly as an absent
override — the locator behaves identically (falling through to the
`cuda-gdb` search-path probe, which does appear in the trace) instead of
using or validating the empty value. -/
theorem C9_empty_override_like_absent (w : Option String) (d : String → Bool) :
    locateCUDAHomeTr ⟨some "", w, d⟩ = locateCUDAHomeTr ⟨none, w, d⟩ ∧
      Effect.whichProbe ∈ (locateCUDAHomeTr ⟨some "", w, d⟩).2 := by
  constructor
  · simp [locateCUDAHomeTr, resolveCUDAHomeTr, truthyCudaHome]
  · unfold locateCUDAHomeTr resolveCUDAHomeTr truthyCudaHome
    cases w with
    | none => simp
    | some p =>
      cases hd : d (dirname (dirname p)) <;> simp [hd]

theorem resolve_error_msg (env : Env) (e : OSError) (tr : List Effect)
    (h : resolveCUDAHomeTr env = (Except.error e, tr)) :
    e = ⟨couldNotLocateMsg⟩ := by
  unfold resolveCUDAHomeTr at h
  cases ht : truthyCudaHome env with
  | some s => rw [ht] at h; simp at h
  | none =>
    rw [ht] at h
    cases hw : env.whichCudaGdb with
    | none =>
      rw [hw] at h
      have := congrArg Prod.fst h
      simp at this
      rw [this]
    | some p => rw [hw] at h; simp at h

theorem locate_error_msg (env : Env) (e : OSError)
    (herr : locateCUDAHome env = Except.error e) :
    e.msg = couldNotLocateMsg ∨ ∃ p, e.msg = invalidCudaHomeMsg p := by
  unfold locateCUDAHome locateCUDAHomeTr at herr
  rcases hres : resolveCUDAHomeTr env with ⟨res, tr⟩
  rw [hres] at herr
  cases res with
  | error e2 =>
    left
    have h2 : e2 = e := by simpa using herr
    have h3 := resolve_error_msg env e2 tr hres
    rw [← h2, h3]
  | ok h2 =>
    cases hd : env.isDir h2 with
    | true => simp [hd] at herr
    | false =>
      right
      refine ⟨h2, ?_⟩
      have h4 : (⟨invalidCudaHomeMsg h2⟩ : OSError) = e := by simpa [hd] using herr
      rw [← h4]

/-- C10: both locator failures raise the same exception type (`OSError`):
every error the locator produces carries either the "could not locate"
message or an "invalid CUDA_HOME" message, and those messages are never
equal, so the two failures are distinguishable only by message text. -/
theorem C10_single_error_type (env : Env) (e : OSError)
    (herr : locateCUDAHome env = Except.error e) :
    (e.msg = couldNotLocateMsg ∨ ∃ p, e.msg = invalidCudaHomeMsg p) ∧
      ∀ p, invalidCudaHomeMsg p ≠ couldNotLocateMsg := by
  refine ⟨locate_error_msg env e herr, ?_⟩
  intro p hp
  have hdata := congrArg String.data hp
  rw [show invalidCudaHomeMsg p
      = "Invalid CUDA_HOME: directory does not exist: " ++ p from rfl] at hdata
  rw [String.data_append] at hdata
  rw [show ("Invalid CUDA_HOME: directory does not exist: ").data
      = 'I' :: ("nvalid CUDA_HOME: directory does not exist: ").data from rfl] at hdata
  rw [show couldNotLocateMsg.data
      = 'C' :: ("ould not locate CUDA. Please set the environment variable CUDA_HOME to the path to the CUDA installation and try again.").data from rfl] at hdata
  rw [List.cons_append] at hdata
  injection hdata with hchar _
  exact absurd hchar (by decide)

theorem C10_witness :
    ((⟨couldNotLocateMsg⟩ : OSError).msg = couldNotLocateMsg ∨
        ∃ p, (⟨couldNotLocateMsg⟩ : OSError).msg = invalidCudaHomeMsg p) ∧
      ∀ p, invalidCudaHomeMsg p ≠ couldNotLocateMsg :=
  C10_single_error_type ⟨none, none, fun _ => true⟩ ⟨couldNotLocateMsg⟩ rfl

end RmmSetup
